import Mathlib

/-!
Verification of the task-tracking REST API (services, repositories and
authorization middleware) against its specification.

The embedding models the persistence store as a list of rows, and each
repository or service method as a pure function on that list.  JavaScript
truthiness tests that appear in the source (for example the spread guards
in the update method and the credential fallback in the middleware) are
modelled by an explicit emptiness test on strings, and optional values by
Option.  Store-generated data (fresh ids, timestamps) are passed in as
explicit parameters.
-/

namespace TaskApi

/-- JavaScript string truthiness: a string is truthy iff it is nonempty.
Used wherever the source tests a string with a bare condition, for example
the guard in the update spread and the credential fallback. -/
def truthy (s : String) : Bool := s != ""

/-- A row of the tasks table.  The status column is the string stored by
the database; the four enum members are the strings TODO, IN_PROGRESS,
DONE and ARCHIVED.  The description column is nullable.  Timestamps are
modelled as naturals (epoch instants). -/
structure Task where
  id : String
  title : String
  description : Option String
  status : String
  userId : String
  createdAt : Nat
  updatedAt : Nat
deriving DecidableEq, Repr

/-- A row of the users table. -/
structure User where
  id : String
  email : String
  name : String
  createdAt : Nat
  updatedAt : Nat
deriving DecidableEq, Repr

/-- Request body of POST /tasks (CreateTaskBody in types).  The status
field is optional; its value is kept as the raw string handed to the
repository. -/
structure CreateTaskBody where
  title : String
  description : Option String
  status : Option String
deriving DecidableEq, Repr

/-- Request body of PATCH /tasks/:id (UpdateTaskBody in types).  The outer
Option on description is presence (undefined when absent); the inner
Option distinguishes a null from a string, since the stored column is
nullable. -/
structure UpdateTaskBody where
  title : Option String
  description : Option (Option String)
  status : Option String
deriving DecidableEq, Repr

/-- Query filters of GET /tasks (TaskFilters in types). -/
structure TaskFilters where
  status : Option String
deriving DecidableEq, Repr

/-- The ordering used by the listing query: orderBy createdAt desc.
createdDesc a b holds when a was created no earlier than b, so a list
sorted by this relation is newest-first. -/
def createdDesc (a b : Task) : Prop := b.createdAt ≤ a.createdAt

instance : DecidableRel createdDesc := fun a b => Nat.decLe b.createdAt a.createdAt

instance : IsTotal Task createdDesc := ⟨fun a b => Nat.le_total b.createdAt a.createdAt⟩

instance : IsTrans Task createdDesc := ⟨fun _ _ _ h1 h2 => Nat.le_trans h2 h1⟩

namespace TaskRepository

/-- TaskRepository.findById: prisma.task.findUnique on the primary key. -/
def findById (tasks : List Task) (id : String) : Option Task :=
  tasks.find? fun t => t.id == id

/-- The where-clause of TaskRepository.findByUserId: the userId equality
plus the status equality, the latter only when filters carries a truthy
status (the source spreads the status condition behind a truthiness
guard). -/
def matchesWhere (userId : String) (filters : Option TaskFilters) (t : Task) : Bool :=
  t.userId == userId &&
    (match filters with
     | none => true
     | some f =>
       match f.status with
       | none => true
       | some s => if truthy s then t.status == s else true)

/-- TaskRepository.findByUserId: prisma.task.findMany with the where
clause above, ordered by createdAt descending. -/
def findByUserId (tasks : List Task) (userId : String) (filters : Option TaskFilters) :
    List Task :=
  List.insertionSort createdDesc (tasks.filter (matchesWhere userId filters))

/-- The status stored by TaskRepository.create: data.status or the TODO
default, where the or is the JavaScript short-circuit on truthiness. -/
def defaultedStatus (s : Option String) : String :=
  match s with
  | some v => if truthy v then v else "TODO"
  | none => "TODO"

/-- TaskRepository.create: prisma.task.create inserting a fresh row with
the supplied title, description, defaulted status and owner.  The fresh
primary key and the clock are passed in explicitly.  Returns the created
row and the new table state. -/
def create (tasks : List Task) (userId : String) (data : CreateTaskBody)
    (newId : String) (now : Nat) : Task × List Task :=
  let t : Task :=
    { id := newId
      title := data.title
      description := data.description
      status := defaultedStatus data.status
      userId := userId
      createdAt := now
      updatedAt := now }
  (t, tasks ++ [t])

/-- The data clause of TaskRepository.update applied to a row: title and
status are spread behind truthiness guards, description behind a
definedness guard, and the store refreshes updatedAt. -/
def applyUpdate (data : UpdateTaskBody) (now : Nat) (t : Task) : Task :=
  { t with
    title :=
      match data.title with
      | some s => if truthy s then s else t.title
      | none => t.title
    description :=
      match data.description with
      | some d => d
      | none => t.description
    status :=
      match data.status with
      | some s => if truthy s then s else t.status
      | none => t.status
    updatedAt := now }

/-- TaskRepository.update: prisma.task.update on the primary key.  The
store throws when the row is missing, modelled by none.  Returns the
updated row and the new table state. -/
def update (tasks : List Task) (id : String) (data : UpdateTaskBody) (now : Nat) :
    Option (Task × List Task) :=
  match findById tasks id with
  | none => none
  | some t =>
    let t' := applyUpdate data now t
    some (t', tasks.map fun u => if u.id == id then t' else u)

/-- TaskRepository.delete: prisma.task.delete on the primary key; throws
(none) when the row is missing. -/
def delete (tasks : List Task) (id : String) : Option (Task × List Task) :=
  match findById tasks id with
  | none => none
  | some t => some (t, tasks.filter fun u => !(u.id == id))

/-- TaskRepository.archive: prisma.task.update on the primary key setting
status to ARCHIVED, with no read of the current status. -/
def archive (tasks : List Task) (id : String) (now : Nat) : Option (Task × List Task) :=
  match findById tasks id with
  | none => none
  | some t =>
    let t' := { t with status := "ARCHIVED", updatedAt := now }
    some (t', tasks.map fun u => if u.id == id then t' else u)

end TaskRepository

namespace UserRepository

/-- UserRepository.findById: prisma.user.findUnique on the primary key. -/
def findById (users : List User) (id : String) : Option User :=
  users.find? fun u => u.id == id

/-- Request body of POST /users (CreateUserBody in types). -/
structure CreateUserBody where
  email : String
  name : String
deriving DecidableEq, Repr

/-- UserRepository.findByEmail: prisma.user.findUnique on the unique email
column; string equality, hence case-sensitive. -/
def findByEmail (users : List User) (email : String) : Option User :=
  users.find? fun u => u.email == email

/-- UserRepository.create: prisma.user.create inserting a fresh row. -/
def create (users : List User) (data : CreateUserBody) (newId : String) (now : Nat) :
    User × List User :=
  let u : User :=
    { id := newId, email := data.email, name := data.name, createdAt := now, updatedAt := now }
  (u, users ++ [u])

end UserRepository

/-- The application error taxonomy (utils/errors): NotFoundError,
ForbiddenError, UnauthorizedError, ConflictError, ValidationError, and the
generic internal error the handler assigns to anything else. -/
inductive AppError where
  | notFound
  | forbidden
  | unauthorized
  | conflict
  | validation
  | internal
deriving DecidableEq, Repr

/-- The HTTP status code carried by each error class. -/
def AppError.statusCode : AppError → Nat
  | .notFound => 404
  | .forbidden => 403
  | .unauthorized => 401
  | .conflict => 409
  | .validation => 400
  | .internal => 500

namespace TaskService

/-- TaskService.getTasks: delegates to the repository listing. -/
def getTasks (tasks : List Task) (userId : String) (filters : Option TaskFilters) :
    List Task :=
  TaskRepository.findByUserId tasks userId filters

/-- TaskService.getTaskById: fetch by id, throw NotFound when absent,
then throw Forbidden when the row is not owned by the caller. -/
def getTaskById (tasks : List Task) (taskId userId : String) : Except AppError Task :=
  match TaskRepository.findById tasks taskId with
  | none => .error .notFound
  | some task =>
    if task.userId ≠ userId then .error .forbidden
    else .ok task

/-- TaskService.createTask: delegates to the repository insert. -/
def createTask (tasks : List Task) (userId : String) (data : CreateTaskBody)
    (newId : String) (now : Nat) : Task × List Task :=
  TaskRepository.create tasks userId data newId now

/-- TaskService.updateTask: existence check, then ownership check, then
the repository update.  A store throw from the update (impossible in the
sequential model, since the row was just found) would surface as the
generic 500 error. -/
def updateTask (tasks : List Task) (taskId userId : String) (data : UpdateTaskBody)
    (now : Nat) : Except AppError (Task × List Task) :=
  match TaskRepository.findById tasks taskId with
  | none => .error .notFound
  | some task =>
    if task.userId ≠ userId then .error .forbidden
    else
      match TaskRepository.update tasks taskId data now with
      | none => .error .internal
      | some r => .ok r

/-- TaskService.deleteTask: existence check, then ownership check, then
the repository delete; returns the new table state. -/
def deleteTask (tasks : List Task) (taskId userId : String) :
    Except AppError (List Task) :=
  match TaskRepository.findById tasks taskId with
  | none => .error .notFound
  | some task =>
    if task.userId ≠ userId then .error .forbidden
    else
      match TaskRepository.delete tasks taskId with
      | none => .error .internal
      | some r => .ok r.2

/-- TaskService.archiveTask: existence check, then ownership check, then
the repository archive. -/
def archiveTask (tasks : List Task) (taskId userId : String) (now : Nat) :
    Except AppError (Task × List Task) :=
  match TaskRepository.findById tasks taskId with
  | none => .error .notFound
  | some task =>
    if task.userId ≠ userId then .error .forbidden
    else
      match TaskRepository.archive tasks taskId now with
      | none => .error .internal
      | some r => .ok r

end TaskService

namespace UserService

/-- UserService.getUserById: fetch by id, NotFound when absent. -/
def getUserById (users : List User) (userId : String) : Except AppError User :=
  match UserRepository.findById users userId with
  | none => .error .notFound
  | some u => .ok u

/-- UserService.createUser: pre-check on the email with findByEmail, throw
Conflict when a row matches, otherwise insert.  Returns the outcome
together with the resulting table state, so that a conflict visibly
leaves the store untouched. -/
def createUser (users : List User) (data : UserRepository.CreateUserBody)
    (newId : String) (now : Nat) : Except AppError User × List User :=
  match UserRepository.findByEmail users data.email with
  | some _ => (.error .conflict, users)
  | none =>
    let r := UserRepository.create users data newId now
    (.ok r.1, r.2)

end UserService

/-- The two credential channels a request carries: the x-user-id header
and the userId query parameter.  A present-but-empty value is some of the
empty string; an absent one is none. -/
structure AuthRequest where
  headerUserId : Option String
  queryUserId : Option String
deriving DecidableEq, Repr

/-- The three reasons the middleware throws UnauthorizedError; every one
maps to HTTP 401. -/
inductive AuthError where
  | missingCredential
  | invalidFormat
  | unknownUser
deriving DecidableEq, Repr

/-- Every middleware failure is an UnauthorizedError, status 401. -/
def AuthError.statusCode : AuthError → Nat := fun _ => 401

/-- Hexadecimal digit, either case, as in the character classes of
UUID_REGEX. -/
def isHexDigit (c : Char) : Bool :=
  (Nat.ble 48 c.toNat && Nat.ble c.toNat 57) ||
  (Nat.ble 97 c.toNat && Nat.ble c.toNat 102) ||
  (Nat.ble 65 c.toNat && Nat.ble c.toNat 70)

/-- UUID_REGEX.test: the anchored case-insensitive 8-4-4-4-12 pattern,
stated positionally: the string has 36 characters, hyphens exactly at
offsets 8, 13, 18 and 23, and hexadecimal digits everywhere else. -/
def uuidRegexTest (s : String) : Bool :=
  let cs := s.toList
  cs.length == 36 &&
    (List.range 36).all fun i =>
      if i == 8 || i == 13 || i == 18 || i == 23 then cs.getD i ' ' == '-'
      else isHexDigit (cs.getD i ' ')

/-- The credential-resolution statements of authMiddleware: take the
header value, and when it is falsy (absent or empty) fall back to the
query parameter. -/
def resolveCredential (req : AuthRequest) : Option String :=
  match req.headerUserId with
  | some v => if truthy v then some v else req.queryUserId
  | none => req.queryUserId

/-- authMiddleware: resolve the credential, throw on a falsy resolution,
throw on a format mismatch, look the user up (the single store access,
counted in the second component), throw when no row exists, and attach
the identifier on success. -/
def authMiddleware (users : List User) (req : AuthRequest) :
    Except AuthError String × Nat :=
  match resolveCredential req with
  | none => (.error .missingCredential, 0)
  | some v =>
    if ¬ truthy v then (.error .missingCredential, 0)
    else if ¬ uuidRegexTest v then (.error .invalidFormat, 0)
    else
      match UserRepository.findById users v with
      | none => (.error .unknownUser, 1)
      | some _ => (.ok v, 1)

/-- The POST /tasks/:id/archive route behind the middleware: a middleware
throw surfaces as 401; a service throw surfaces with the status code of
its error class; success is 200 with the archived task as body. -/
def archiveEndpoint (users : List User) (tasks : List Task) (req : AuthRequest)
    (taskId : String) (now : Nat) : Nat × Option Task :=
  match (authMiddleware users req).1 with
  | .error e => (e.statusCode, none)
  | .ok uid =>
    match TaskService.archiveTask tasks taskId uid now with
    | .error e => (e.statusCode, none)
    | .ok r => (200, some r.1)

/-! Concrete fixtures used by the witness and counterexample theorems. -/

/-- A well-formed user identifier. -/
def aliceId : String := "11111111-1111-1111-1111-111111111111"

/-- A second well-formed user identifier. -/
def bobId : String := "22222222-2222-2222-2222-222222222222"

/-- A stored user. -/
def alice : User :=
  { id := aliceId, email := "alice@example.com", name := "Alice", createdAt := 1, updatedAt := 1 }

/-- Another stored user. -/
def bob : User :=
  { id := bobId, email := "bob@example.com", name := "Bob", createdAt := 2, updatedAt := 2 }

/-- A task of alice that is already archived. -/
def taskT1 : Task :=
  { id := "t1", title := "T1", description := none, status := "ARCHIVED",
    userId := aliceId, createdAt := 10, updatedAt := 10 }

/-- A task of alice with a stored description and TODO status. -/
def taskD : Task :=
  { id := "td", title := "Titled", description := some "old text", status := "TODO",
    userId := aliceId, createdAt := 11, updatedAt := 11 }

/-- Listing fixture: a DONE task of alice, created at 3. -/
def listDone : Task :=
  { id := "a1", title := "A", description := none, status := "DONE",
    userId := aliceId, createdAt := 3, updatedAt := 3 }

/-- Listing fixture: a TODO task of alice, created at 7. -/
def listTodo : Task :=
  { id := "a2", title := "B", description := none, status := "TODO",
    userId := aliceId, createdAt := 7, updatedAt := 7 }

/-- Listing fixture: a DONE task of bob, created at 5. -/
def listBob : Task :=
  { id := "b1", title := "C", description := none, status := "DONE",
    userId := bobId, createdAt := 5, updatedAt := 5 }

/-! Claims. -/

/-- Claim C1: every caller-identity task operation (getTaskById,
updateTask, deleteTask, archiveTask) fails with NotFound when no task with
the given id exists, for every caller; and fails with Forbidden when the
task exists but its owner differs from the caller.  The first conjunct is
quantified over all callers, so a non-owner probing a nonexistent id
always receives NotFound, never Forbidden. -/
theorem C1_existence_check_before_ownership (tasks : List Task) (taskId callerId : String)
    (data : UpdateTaskBody) (now : Nat) :
    (TaskRepository.findById tasks taskId = none →
      TaskService.getTaskById tasks taskId callerId = .error .notFound ∧
      TaskService.updateTask tasks taskId callerId data now = .error .notFound ∧
      TaskService.deleteTask tasks taskId callerId = .error .notFound ∧
      TaskService.archiveTask tasks taskId callerId now = .error .notFound) ∧
    (∀ t, TaskRepository.findById tasks taskId = some t → t.userId ≠ callerId →
      TaskService.getTaskById tasks taskId callerId = .error .forbidden ∧
      TaskService.updateTask tasks taskId callerId data now = .error .forbidden ∧
      TaskService.deleteTask tasks taskId callerId = .error .forbidden ∧
      TaskService.archiveTask tasks taskId callerId now = .error .forbidden) := by
  constructor
  · intro h
    refine ⟨?_, ?_, ?_, ?_⟩ <;>
      simp [TaskService.getTaskById, TaskService.updateTask, TaskService.deleteTask,
        TaskService.archiveTask, h]
  · intro t h hne
    refine ⟨?_, ?_, ?_, ?_⟩ <;>
      simp [TaskService.getTaskById, TaskService.updateTask, TaskService.deleteTask,
        TaskService.archiveTask, h, hne]

/-- Witness for C1 at concrete inputs: bob reading the task of alice gets
Forbidden, and bob reading an unknown id gets NotFound. -/
theorem C1_witness :
    TaskService.getTaskById [taskT1] "t1" bobId = .error .forbidden ∧
    TaskService.getTaskById [taskT1] "nope" bobId = .error .notFound := by
  constructor
  · exact ((C1_existence_check_before_ownership [taskT1] "t1" bobId
      { title := none, description := none, status := none } 0).2 taskT1
      (by decide) (by decide)).1
  · exact ((C1_existence_check_before_ownership [taskT1] "nope" bobId
      { title := none, description := none, status := none } 0).1 (by decide)).1

/-- Claim C3: archiving an existing task of the caller succeeds and yields
status ARCHIVED, with no hypothesis on the current status (the statement
is quantified over every stored status, including ARCHIVED itself). -/
theorem C3_archive_unconditional (tasks : List Task) (taskId callerId : String) (now : Nat)
    (t : Task) (hfind : TaskRepository.findById tasks taskId = some t)
    (hown : t.userId = callerId) :
    ∃ t' tasks', TaskService.archiveTask tasks taskId callerId now = .ok (t', tasks') ∧
      t'.status = "ARCHIVED" := by
  refine ⟨{ t with status := "ARCHIVED", updatedAt := now },
    tasks.map fun u =>
      if u.id == taskId then { t with status := "ARCHIVED", updatedAt := now } else u,
    ?_, rfl⟩
  simp [TaskService.archiveTask, TaskRepository.archive, hfind, hown]

/-- Witness for C3: archiving a task that is already ARCHIVED succeeds and
yields ARCHIVED again. -/
theorem C3_witness :
    taskT1.status = "ARCHIVED" ∧
    ∃ t' tasks', TaskService.archiveTask [taskT1] "t1" aliceId 99 = .ok (t', tasks') ∧
      t'.status = "ARCHIVED" :=
  ⟨rfl, C3_archive_unconditional [taskT1] "t1" aliceId 99 taskT1 (by decide) (by decide)⟩

/-- Claim C9: archiving changes only the status column of the task: the
identifier, title, description, owner and creation timestamp of the
returned task all equal those of the stored task, and every other row of
the table is untouched. -/
theorem C9_archive_frame (tasks : List Task) (taskId callerId : String) (now : Nat)
    (t : Task) (hfind : TaskRepository.findById tasks taskId = some t)
    (hown : t.userId = callerId) :
    ∃ t' tasks', TaskService.archiveTask tasks taskId callerId now = .ok (t', tasks') ∧
      t'.id = t.id ∧ t'.title = t.title ∧ t'.description = t.description ∧
      t'.userId = t.userId ∧ t'.createdAt = t.createdAt ∧ t'.status = "ARCHIVED" ∧
      (∀ u ∈ tasks, u.id ≠ taskId → u ∈ tasks') := by
  refine ⟨{ t with status := "ARCHIVED", updatedAt := now },
    tasks.map fun u =>
      if u.id == taskId then { t with status := "ARCHIVED", updatedAt := now } else u,
    ?_, rfl, rfl, rfl, rfl, rfl, rfl, ?_⟩
  · simp [TaskService.archiveTask, TaskRepository.archive, hfind, hown]
  · intro u hu hne
    have hmem := List.mem_map_of_mem
      (fun u =>
        if u.id == taskId then { t with status := "ARCHIVED", updatedAt := now } else u) hu
    simpa [hne] using hmem

/-- Witness for C9: archiving the TODO task of alice keeps its title,
description, owner and creation time. -/
theorem C9_witness :
    ∃ t' tasks', TaskService.archiveTask [taskD] "td" aliceId 50 = .ok (t', tasks') ∧
      t'.id = taskD.id ∧ t'.title = taskD.title ∧ t'.description = taskD.description ∧
      t'.userId = taskD.userId ∧ t'.createdAt = taskD.createdAt ∧ t'.status = "ARCHIVED" ∧
      (∀ u ∈ [taskD], u.id ≠ "td" → u ∈ tasks') :=
  C9_archive_frame [taskD] "td" aliceId 50 taskD (by decide) (by decide)

/-- Claim C4: creating a task with the status field omitted stores status
TODO; the created row always carries the supplied owner and title, and the
insert happens for every prior table state, so no uniqueness constraint
applies to the title. -/
theorem C4_create_defaults (tasks : List Task) (userId : String) (data : CreateTaskBody)
    (newId : String) (now : Nat) :
    (data.status = none → (TaskRepository.create tasks userId data newId now).1.status = "TODO") ∧
    (TaskRepository.create tasks userId data newId now).1.userId = userId ∧
    (TaskRepository.create tasks userId data newId now).1.title = data.title ∧
    (TaskRepository.create tasks userId data newId now).2
      = tasks ++ [(TaskRepository.create tasks userId data newId now).1] := by
  refine ⟨?_, rfl, rfl, rfl⟩
  intro h
  simp [TaskRepository.create, TaskRepository.defaultedStatus, h]

/-- Witness for C4: the store already holds a task titled T1, and creating
another task titled T1 without a status still inserts it, with status TODO
and the supplied owner. -/
theorem C4_witness :
    taskT1.title = "T1" ∧
    (TaskRepository.create [taskT1] aliceId
      { title := "T1", description := none, status := none } "t2" 20).1.status = "TODO" ∧
    (TaskRepository.create [taskT1] aliceId
      { title := "T1", description := none, status := none } "t2" 20).1.userId = aliceId ∧
    (TaskRepository.create [taskT1] aliceId
      { title := "T1", description := none, status := none } "t2" 20).2
      = [taskT1] ++ [(TaskRepository.create [taskT1] aliceId
          { title := "T1", description := none, status := none } "t2" 20).1] := by
  have h := C4_create_defaults [taskT1] aliceId
    { title := "T1", description := none, status := none } "t2" 20
  exact ⟨rfl, h.1 rfl, h.2.1, h.2.2.2⟩

/-- Claim C5: updating an existing row applies only the supplied fields:
absent title, description and status each keep their prior value; a
supplied description is always written, including the empty string and
null (the inner none), distinguishing it from an absent one; a supplied
nonempty title or status is written; and the identifier, owner and
creation timestamp never change. -/
theorem C5_update_partial_fields (tasks : List Task) (taskId : String)
    (data : UpdateTaskBody) (now : Nat) (t : Task)
    (hfind : TaskRepository.findById tasks taskId = some t) :
    ∃ t' tasks', TaskRepository.update tasks taskId data now = some (t', tasks') ∧
      t'.id = t.id ∧ t'.userId = t.userId ∧ t'.createdAt = t.createdAt ∧
      (data.title = none → t'.title = t.title) ∧
      (data.description = none → t'.description = t.description) ∧
      (data.status = none → t'.status = t.status) ∧
      (∀ d, data.description = some d → t'.description = d) ∧
      (∀ s, data.title = some s → s ≠ "" → t'.title = s) ∧
      (∀ s, data.status = some s → s ≠ "" → t'.status = s) := by
  refine ⟨TaskRepository.applyUpdate data now t,
    tasks.map fun u => if u.id == taskId then TaskRepository.applyUpdate data now t else u,
    ?_, rfl, rfl, rfl, ?_, ?_, ?_, ?_, ?_, ?_⟩
  · simp [TaskRepository.update, hfind]
  · intro h; simp [TaskRepository.applyUpdate, h]
  · intro h; simp [TaskRepository.applyUpdate, h]
  · intro h; simp [TaskRepository.applyUpdate, h]
  · intro d hd; simp [TaskRepository.applyUpdate, hd]
  · intro s hs hne
    have ht : truthy s = true := by simpa [truthy] using hne
    simp [TaskRepository.applyUpdate, hs, ht]
  · intro s hs hne
    have ht : truthy s = true := by simpa [truthy] using hne
    simp [TaskRepository.applyUpdate, hs, ht]

/-- Witness for C5: a partial carrying only a null description clears the
stored description of the task and leaves the other columns alone. -/
theorem C5_witness :
    ∃ t' tasks',
      TaskRepository.update [taskD] "td"
        { title := none, description := some none, status := none } 30 = some (t', tasks') ∧
      t'.id = taskD.id ∧ t'.userId = taskD.userId ∧ t'.createdAt = taskD.createdAt ∧
      ((none : Option String) = none → t'.title = taskD.title) ∧
      ((some (none : Option String)) = none → t'.description = taskD.description) ∧
      ((none : Option String) = none → t'.status = taskD.status) ∧
      (∀ d, (some (none : Option String)) = some d → t'.description = d) ∧
      (∀ s, (none : Option String) = some s → s ≠ "" → t'.title = s) ∧
      (∀ s, (none : Option String) = some s → s ≠ "" → t'.status = s) :=
  C5_update_partial_fields [taskD] "td"
    { title := none, description := some none, status := none } 30 taskD (by decide)

/-- Claim C10: the repository update treats an empty-string title exactly
like an absent title, and an empty-string status exactly like an absent
status (the spread guards test truthiness), while an empty-string
description is written. -/
theorem C10_empty_string_semantics (tasks : List Task) (taskId : String)
    (data : UpdateTaskBody) (now : Nat) :
    (data.title = some "" →
      TaskRepository.update tasks taskId data now
        = TaskRepository.update tasks taskId
            { title := none, description := data.description, status := data.status } now) ∧
    (data.status = some "" →
      TaskRepository.update tasks taskId data now
        = TaskRepository.update tasks taskId
            { title := data.title, description := data.description, status := none } now) ∧
    (∀ t, TaskRepository.findById tasks taskId = some t →
      data.description = some (some "") →
      ∃ t' tasks', TaskRepository.update tasks taskId data now = some (t', tasks') ∧
        t'.description = some "") := by
  refine ⟨?_, ?_, ?_⟩
  · intro h
    cases hf : TaskRepository.findById tasks taskId with
    | none => simp [TaskRepository.update, hf]
    | some t =>
      have happ : TaskRepository.applyUpdate data now t
          = TaskRepository.applyUpdate
              { title := none, description := data.description, status := data.status } now t := by
        simp [TaskRepository.applyUpdate, h, truthy]
      simp [TaskRepository.update, hf, happ]
  · intro h
    cases hf : TaskRepository.findById tasks taskId with
    | none => simp [TaskRepository.update, hf]
    | some t =>
      have happ : TaskRepository.applyUpdate data now t
          = TaskRepository.applyUpdate
              { title := data.title, description := data.description, status := none } now t := by
        simp [TaskRepository.applyUpdate, h, truthy]
      simp [TaskRepository.update, hf, happ]
  · intro t hf hd
    refine ⟨TaskRepository.applyUpdate data now t,
      tasks.map fun u => if u.id == taskId then TaskRepository.applyUpdate data now t else u,
      ?_, ?_⟩
    · simp [TaskRepository.update, hf]
    · simp [TaskRepository.applyUpdate, hd]

/-- Witness for C10: on the stored task of alice, an update carrying an
empty title behaves exactly like one carrying no title, and an update
carrying an empty description stores the empty description. -/
theorem C10_witness :
    (TaskRepository.update [taskD] "td"
        { title := some "", description := none, status := none } 40
      = TaskRepository.update [taskD] "td"
        { title := none, description := none, status := none } 40) ∧
    (∃ t' tasks',
      TaskRepository.update [taskD] "td"
        { title := none, description := some (some ""), status := none } 40
        = some (t', tasks') ∧ t'.description = some "") := by
  constructor
  · exact (C10_empty_string_semantics [taskD] "td"
      { title := some "", description := none, status := none } 40).1 rfl
  · exact (C10_empty_string_semantics [taskD] "td"
      { title := none, description := some (some ""), status := none } 40).2.2
      taskD (by decide) rfl

/-- Claim C7: when some stored user already carries exactly the requested
email, createUser fails with Conflict and returns the store unchanged;
when no stored user carries exactly that email (even one differing only
in case), the insert happens.  The equality used by the pre-check is plain
string equality, hence case-sensitive. -/
theorem C7_email_conflict (users : List User) (data : UserRepository.CreateUserBody)
    (newId : String) (now : Nat) :
    ((∃ u ∈ users, u.email = data.email) →
      UserService.createUser users data newId now = (.error .conflict, users)) ∧
    ((∀ u ∈ users, u.email ≠ data.email) →
      ∃ u, UserService.createUser users data newId now = (.ok u, users ++ [u]) ∧
        u.email = data.email) := by
  constructor
  · rintro ⟨u, hu, he⟩
    cases hf : users.find? (fun w => w.email == data.email) with
    | none =>
      exfalso
      have hnone := List.find?_eq_none.mp hf u hu
      simp [he] at hnone
    | some w =>
      simp [UserService.createUser, UserRepository.findByEmail, hf]
  · intro hall
    cases hf : users.find? (fun w => w.email == data.email) with
    | none =>
      refine ⟨(UserRepository.create users data newId now).1, ?_, rfl⟩
      simp [UserService.createUser, UserRepository.findByEmail, hf, UserRepository.create]
    | some w =>
      exfalso
      have hw := List.mem_of_find?_eq_some hf
      have hbe := List.find?_some hf
      have : w.email = data.email := by simpa using hbe
      exact hall w hw this

/-- Witness for C7: a second user with exactly the email of alice draws a
Conflict and leaves the store as it was, while a user whose email differs
from it only by case is inserted. -/
theorem C7_witness :
    UserService.createUser [alice] { email := "alice@example.com", name := "Clone" } "u9" 9
      = (.error .conflict, [alice]) ∧
    ∃ u, UserService.createUser [alice] { email := "ALICE@example.com", name := "Loud" } "u8" 8
      = (.ok u, [alice] ++ [u]) ∧ u.email = "ALICE@example.com" := by
  constructor
  · exact (C7_email_conflict [alice] { email := "alice@example.com", name := "Clone" } "u9" 9).1
      ⟨alice, by decide, by decide⟩
  · exact (C7_email_conflict [alice] { email := "ALICE@example.com", name := "Loud" } "u8" 8).2
      (by decide)

/-- Counterexample to claim C2 as stated: the middleware does not fall
back to the query parameter only when the header is absent.  With the
header present but empty and a valid query credential, the request is
authenticated from the query value; removing only the query value changes
the outcome to a missing-credential failure, so the query channel was
consulted although the header was present. -/
theorem C2_counterexample :
    (some "" : Option String) ≠ none ∧
    (authMiddleware [alice] { headerUserId := some "", queryUserId := some aliceId }).1
      = .ok aliceId ∧
    (authMiddleware [alice] { headerUserId := some "", queryUserId := none }).1
      = .error .missingCredential := by
  refine ⟨by simp, by rfl, by rfl⟩

/-- Claim C2 (amended): the middleware reads the header first and falls
back to the query parameter exactly when the header is absent or empty;
it fails with an UnauthorizedError when no channel supplies a nonempty
value, when the value does not match the UUID pattern (checked before any
store access), or when no user row carries that identifier; on success it
attaches the resolved identifier and performs exactly one store lookup
(the second component counts lookups). -/
theorem C2_auth_resolution (users : List User) (req : AuthRequest) (v : String) :
    (req.headerUserId = some v → v ≠ "" →
      authMiddleware users req
        = authMiddleware users { headerUserId := some v, queryUserId := none }) ∧
    ((req.headerUserId = none ∨ req.headerUserId = some "") →
      authMiddleware users req
        = authMiddleware users { headerUserId := req.queryUserId, queryUserId := none }) ∧
    (resolveCredential req = none ∨ resolveCredential req = some "" →
      authMiddleware users req = (.error .missingCredential, 0)) ∧
    (resolveCredential req = some v → v ≠ "" → uuidRegexTest v = false →
      authMiddleware users req = (.error .invalidFormat, 0)) ∧
    (resolveCredential req = some v → uuidRegexTest v = true →
      UserRepository.findById users v = none →
      authMiddleware users req = (.error .unknownUser, 1)) ∧
    (∀ u, resolveCredential req = some v → uuidRegexTest v = true →
      UserRepository.findById users v = some u →
      authMiddleware users req = (.ok v, 1)) := by
  refine ⟨?_, ?_, ?_, ?_, ?_, ?_⟩
  · intro h hne
    have ht : truthy v = true := by simpa [truthy] using hne
    simp [authMiddleware, resolveCredential, h, ht]
  · intro h
    have hres : resolveCredential req = req.queryUserId := by
      rcases h with h | h <;> simp [resolveCredential, h, truthy]
    unfold authMiddleware
    rw [hres]
    cases hq : req.queryUserId with
    | none => rfl
    | some w =>
      by_cases ht : truthy w = true
      · simp [resolveCredential, ht]
      · have hw : w = "" := by simpa [truthy] using ht
        subst hw
        simp [resolveCredential, truthy]
  · intro h
    rcases h with h | h
    · simp [authMiddleware, h]
    · simp [authMiddleware, h, truthy]
  · intro h hne htest
    have ht : truthy v = true := by simpa [truthy] using hne
    simp [authMiddleware, h, ht, htest]
  · intro h htest hfind
    have hne : v ≠ "" := fun hv => absurd (hv ▸ htest) (by decide)
    have ht : truthy v = true := by simpa [truthy] using hne
    simp [authMiddleware, h, ht, htest, hfind]
  · intro u h htest hfind
    have hne : v ≠ "" := fun hv => absurd (hv ▸ htest) (by decide)
    have ht : truthy v = true := by simpa [truthy] using hne
    simp [authMiddleware, h, ht, htest, hfind]

/-- Witness for C2: a request carrying the identifier of alice in the
header alone is authenticated, the identifier is attached, and exactly
one store lookup happens. -/
theorem C2_witness :
    authMiddleware [alice] { headerUserId := some aliceId, queryUserId := none }
      = (.ok aliceId, 1) :=
  (C2_auth_resolution [alice] { headerUserId := some aliceId, queryUserId := none }
    aliceId).2.2.2.2.2 alice (by rfl) (by decide) (by rfl)

/-- Claim C6: the listing returns only tasks of the caller; without a
status filter it returns exactly the tasks of the caller; with a
(nonempty, as the route schema guarantees) status filter it returns
exactly the tasks of the caller carrying that status; and the result is
sorted newest-first by creation time. -/
theorem C6_listing_owned_filtered_sorted (tasks : List Task) (userId : String)
    (filters : Option TaskFilters) :
    (∀ t ∈ TaskService.getTasks tasks userId filters, t.userId = userId) ∧
    ((filters = none ∨ filters = some { status := none }) →
      ∀ t : Task, t ∈ TaskService.getTasks tasks userId filters ↔
        (t ∈ tasks ∧ t.userId = userId)) ∧
    (∀ s, s ≠ "" → filters = some { status := some s } →
      ∀ t : Task, t ∈ TaskService.getTasks tasks userId filters ↔
        (t ∈ tasks ∧ t.userId = userId ∧ t.status = s)) ∧
    List.Sorted createdDesc (TaskService.getTasks tasks userId filters) := by
  refine ⟨?_, ?_, ?_, ?_⟩
  · intro t ht
    have hmem : t ∈ tasks.filter (TaskRepository.matchesWhere userId filters) := by
      simpa [TaskService.getTasks, TaskRepository.findByUserId,
        List.mem_insertionSort] using ht
    have hp := (List.mem_filter.mp hmem).2
    simp only [TaskRepository.matchesWhere, Bool.and_eq_true, beq_iff_eq] at hp
    exact hp.1
  · intro hf t
    rcases hf with rfl | rfl <;>
      simp [TaskService.getTasks, TaskRepository.findByUserId, List.mem_insertionSort,
        List.mem_filter, TaskRepository.matchesWhere]
  · intro s hs hf t
    subst hf
    have ht : truthy s = true := by simpa [truthy] using hs
    simp [TaskService.getTasks, TaskRepository.findByUserId, List.mem_insertionSort,
      List.mem_filter, TaskRepository.matchesWhere, ht, and_assoc]
  · have hs := List.sorted_insertionSort createdDesc
      (tasks.filter (TaskRepository.matchesWhere userId filters))
    simpa [TaskService.getTasks, TaskRepository.findByUserId] using hs

/-- Witness for C6: in a store holding two tasks of alice and one of bob,
listing for alice with the DONE filter contains her DONE task and not the
DONE task of bob. -/
theorem C6_witness :
    listDone ∈ TaskService.getTasks [listDone, listTodo, listBob] aliceId
      (some { status := some "DONE" }) ∧
    listBob ∉ TaskService.getTasks [listDone, listTodo, listBob] aliceId
      (some { status := some "DONE" }) := by
  have h := (C6_listing_owned_filtered_sorted [listDone, listTodo, listBob] aliceId
    (some { status := some "DONE" })).2.2.1 "DONE" (by decide) rfl
  constructor
  · exact (h listDone).mpr ⟨by decide, by decide, rfl⟩
  · intro hmem
    exact absurd ((h listBob).mp hmem).2.1 (by decide)

/-- Helper for C8: the archive service fails only with NotFound or
Forbidden; the internal store throw is unreachable because the row was
found by the preceding existence check. -/
theorem archiveTask_error_cases (tasks : List Task) (taskId userId : String) (now : Nat)
    (e : AppError) (h : TaskService.archiveTask tasks taskId userId now = .error e) :
    e = .notFound ∨ e = .forbidden := by
  unfold TaskService.archiveTask at h
  cases hf : TaskRepository.findById tasks taskId with
  | none =>
    rw [hf] at h
    simp at h
    exact .inl h.symm
  | some t =>
    rw [hf] at h
    by_cases ho : t.userId = userId
    · have harch : TaskRepository.archive tasks taskId now
          = some ({ t with status := "ARCHIVED", updatedAt := now },
              tasks.map fun u =>
                if u.id == taskId then { t with status := "ARCHIVED", updatedAt := now }
                else u) := by
        simp [TaskRepository.archive, hf]
      simp [ho, harch] at h
    · simp [ho] at h
      exact .inr h.symm

/-- Helper for C8: a successful archive returns a task with status
ARCHIVED. -/
theorem archiveTask_ok_status (tasks : List Task) (taskId userId : String) (now : Nat)
    (t : Task) (rest : List Task)
    (h : TaskService.archiveTask tasks taskId userId now = .ok (t, rest)) :
    t.status = "ARCHIVED" := by
  unfold TaskService.archiveTask at h
  cases hf : TaskRepository.findById tasks taskId with
  | none => rw [hf] at h; simp at h
  | some w =>
    rw [hf] at h
    by_cases ho : w.userId = userId
    · have harch : TaskRepository.archive tasks taskId now
          = some ({ w with status := "ARCHIVED", updatedAt := now },
              tasks.map fun u =>
                if u.id == taskId then { w with status := "ARCHIVED", updatedAt := now }
                else u) := by
        simp [TaskRepository.archive, hf]
      simp [ho, harch] at h
      rw [← h.1]
    · simp [ho] at h

/-- Counterexample to claim C8 as stated: the archive endpoint has a
failure outcome that is neither 401 nor 404.  An authenticated caller
(bob, a stored user with a well-formed identifier) archiving the existing
task of alice receives 403. -/
theorem C8_counterexample :
    archiveEndpoint [alice, bob] [taskT1]
      { headerUserId := some bobId, queryUserId := none } "t1" 9 = (403, none) ∧
    (403 : Nat) ≠ 401 ∧ (403 : Nat) ≠ 404 := by
  refine ⟨by rfl, by decide, by decide⟩

/-- Claim C8 (amended): a request to the archive route yields 200, 401,
403 or 404: 401 on a middleware failure, 404 when the task is missing,
403 when it exists but is not owned by the caller; a 200 response carries
the task, whose status is ARCHIVED. -/
theorem C8_archive_endpoint_statuses (users : List User) (tasks : List Task)
    (req : AuthRequest) (taskId : String) (now : Nat) :
    ((archiveEndpoint users tasks req taskId now).1 = 200 ∨
      (archiveEndpoint users tasks req taskId now).1 = 401 ∨
      (archiveEndpoint users tasks req taskId now).1 = 403 ∨
      (archiveEndpoint users tasks req taskId now).1 = 404) ∧
    ((archiveEndpoint users tasks req taskId now).1 = 200 →
      ∃ t, (archiveEndpoint users tasks req taskId now).2 = some t ∧
        t.status = "ARCHIVED") := by
  cases hauth : (authMiddleware users req).1 with
  | error e =>
    constructor
    · right; left
      simp [archiveEndpoint, hauth, AuthError.statusCode]
    · intro h200
      simp [archiveEndpoint, hauth, AuthError.statusCode] at h200
  | ok uid =>
    cases hserv : TaskService.archiveTask tasks taskId uid now with
    | error e =>
      rcases archiveTask_error_cases tasks taskId uid now e hserv with rfl | rfl
      · constructor
        · right; right; right
          simp [archiveEndpoint, hauth, hserv, AppError.statusCode]
        · intro h200
          simp [archiveEndpoint, hauth, hserv, AppError.statusCode] at h200
      · constructor
        · right; right; left
          simp [archiveEndpoint, hauth, hserv, AppError.statusCode]
        · intro h200
          simp [archiveEndpoint, hauth, hserv, AppError.statusCode] at h200
    | ok r =>
      constructor
      · left
        simp [archiveEndpoint, hauth, hserv]
      · intro _
        refine ⟨r.1, ?_, ?_⟩
        · simp [archiveEndpoint, hauth, hserv]
        · exact archiveTask_ok_status tasks taskId uid now r.1 r.2 (by simpa using hserv)

/-- Witness for C8: alice archiving her own task through the endpoint
receives 200 with a body whose status is ARCHIVED. -/
theorem C8_witness :
    ∃ t, (archiveEndpoint [alice] [taskT1]
      { headerUserId := some aliceId, queryUserId := none } "t1" 9).2 = some t ∧
      t.status = "ARCHIVED" :=
  (C8_archive_endpoint_statuses [alice] [taskT1]
    { headerUserId := some aliceId, queryUserId := none } "t1" 9).2 (by rfl)

end TaskApi
